import Mathlib

/-!
Shallow embedding of the light-sensor digital twin (twin_sim.py, twin_eval.py).

Modelling conventions:
* Python floats are modelled as real numbers (ideal arithmetic).
* Python ints are modelled as integers; truncating conversion int(a / b) on
  non-negative ints is Int.tdiv.
* A Python datetime is modelled by its wall-clock second count since the epoch
  together with an awareness flag (tzinfo present or not); the code only ever
  attaches UTC, so the wall clock of an aware value is its UTC clock.
* Calls to the global random source (random.gauss, random.random,
  random.choice) are modelled by oracle streams indexed by the reading index:
  each stream value is the value that call returned for that reading.
-/

open Real

/-- Wall-clock instant: seconds since the epoch plus tz-awareness flag. -/
structure PyDatetime where
  epochSecs : ℤ
  aware : Bool
deriving DecidableEq

/-- datetime.hour (0..23). -/
def PyDatetime.hour (t : PyDatetime) : ℤ :=
  (t.epochSecs.emod 86400).ediv 3600

/-- datetime.minute (0..59). -/
def PyDatetime.minute (t : PyDatetime) : ℤ :=
  (t.epochSecs.emod 3600).ediv 60

/-- datetime.second (0..59). -/
def PyDatetime.second (t : PyDatetime) : ℤ :=
  t.epochSecs.emod 60

/-- datetime.date() as a day ordinal: calendar day containing the instant. -/
def PyDatetime.dateOrdinal (t : PyDatetime) : ℤ :=
  t.epochSecs.ediv 86400

/-- t + timedelta(seconds=s). -/
def PyDatetime.addSeconds (t : PyDatetime) (s : ℤ) : PyDatetime :=
  ⟨t.epochSecs + s, t.aware⟩

/-- t.replace(tzinfo=timezone.utc) when t is naive, else t. -/
def normalizeTs (t : PyDatetime) : PyDatetime :=
  if t.aware then t else ⟨t.epochSecs, true⟩

/-- TwinConfig dataclass from twin_sim.py, with its default field values. -/
structure TwinConfig where
  room_id : String := r"room-101"
  device_id : String := r"ls-100-0001"
  model_version : String := r"twin-v1"
  sampling_seconds : ℤ := 60
  night_lux : ℝ := 2
  peak_lux : ℝ := 450
  sunrise_hour : ℝ := 7
  sunset_hour : ℝ := 18
  noise_sigma : ℝ := 8
  drift_per_day : ℝ := 2
  anomaly_rate : ℝ := 1 / 100
  alert_lux_threshold : ℝ := 10
  impossible_high_lux : ℝ := 20000

/-- Source helper _clamp(x, lo, hi) = max(lo, min(hi, x)). -/
def pyClamp (x lo hi : ℝ) : ℝ :=
  max lo (min hi x)

/-- Source helper _fractional_hour: ts.hour + ts.minute/60 + ts.second/3600. -/
noncomputable def fractionalHour (ts : PyDatetime) : ℝ :=
  (ts.hour : ℝ) + (ts.minute : ℝ) / 60 + (ts.second : ℝ) / 3600

/-- predicted_lux from twin_sim.py: night lux outside sunrise..sunset, a sine
curve between them, cloud attenuation, floored at 0. -/
noncomputable def predicted_lux (ts : PyDatetime) (cloud_cover : ℝ)
    (cfg : TwinConfig) : ℝ :=
  let h := fractionalHour ts
  if h < cfg.sunrise_hour ∨ cfg.sunset_hour < h then
    cfg.night_lux
  else
    let span := cfg.sunset_hour - cfg.sunrise_hour
    let x := (h - cfg.sunrise_hour) / span
    let daylight_shape := Real.sin (Real.pi * x)
    let attenuation := 1 - 0.75 * pyClamp cloud_cover 0 1
    let lux := cfg.night_lux + (cfg.peak_lux - cfg.night_lux) * daylight_shape * attenuation
    max 0 lux

/-- The four-way uniform random.choice in observed_lux. -/
inductive AnomalyKind where
  | stuck_low
  | stuck_high
  | spike
  | negative
deriving DecidableEq

/-- observed_lux from twin_sim.py.  The random.gauss(0, noise_sigma) draw is
passed in as noise, the random.random() anomaly draw as u, and the
random.choice result as kind. -/
noncomputable def observed_lux (pred_lux : ℝ) (day_index : ℤ) (cfg : TwinConfig)
    (noise u : ℝ) (kind : AnomalyKind) : ℝ :=
  let drift := cfg.drift_per_day * (day_index : ℝ)
  let obs := pred_lux + drift + noise
  if u < cfg.anomaly_rate then
    match kind with
    | .stuck_low => 0
    | .stuck_high => cfg.peak_lux * 2
    | .spike => pred_lux + cfg.peak_lux * 3
    | .negative => -50
  else
    obs

/-- The three flags computed by classify_reading. -/
structure ClassFlags where
  is_negative : Bool
  is_impossible_high : Bool
  is_dark_alert : Bool
deriving DecidableEq

/-- classify_reading from twin_sim.py. -/
noncomputable def classify_reading (lux : ℝ) (cfg : TwinConfig) : ClassFlags where
  is_negative := decide (lux < 0)
  is_impossible_high := decide (cfg.impossible_high_lux < lux)
  is_dark_alert := decide (0 ≤ lux) && decide (lux < cfg.alert_lux_threshold)

/-- The flags dictionary stored in each document: classify_reading output
merged with the generator's is_stuck flag. -/
structure Flags where
  is_negative : Bool
  is_impossible_high : Bool
  is_dark_alert : Bool
  is_stuck : Bool
deriving DecidableEq

/-- One generated document. -/
structure Reading where
  room_id : String
  device_id : String
  model_version : String
  ts : PyDatetime
  cloud_cover : ℝ
  lux_pred : ℝ
  lux_obs : ℝ
  flags : Flags

/-- Placeholder reading used only as the List.getD default. -/
def defaultReading : Reading :=
  ⟨r"room-101", r"ls-100-0001", r"twin-v1", ⟨0, true⟩, 0, 0, 0, ⟨false, false, false, false⟩⟩

instance : Inhabited Reading := ⟨defaultReading⟩

/-- Per-reading oracle streams for the global random source. -/
structure RandomStreams where
  gauss : ℕ → ℝ
  unif : ℕ → ℝ
  choice : ℕ → AnomalyKind
  cloud : ℕ → ℝ

/-- Timestamp of reading i: start_ts + timedelta(seconds=i * sampling_seconds),
with start the (already normalized) start timestamp. -/
def tsAt (start : PyDatetime) (cfg : TwinConfig) (i : ℕ) : PyDatetime :=
  start.addSeconds ((i : ℤ) * cfg.sampling_seconds)

/-- day_index of reading i: (ts.date() - start_ts.date()).days. -/
def dayIndexAt (start : PyDatetime) (cfg : TwinConfig) (i : ℕ) : ℤ :=
  (tsAt start cfg i).dateOrdinal - start.dateOrdinal

/-- Cloud cover of reading i: cloud_cover_fn(ts) when supplied, else the
random.random() draw for that reading; clamped to [0, 1]. -/
noncomputable def cloudAt (start : PyDatetime) (cfg : TwinConfig)
    (fn : Option (PyDatetime → ℝ)) (rng : RandomStreams) (i : ℕ) : ℝ :=
  pyClamp (match fn with
    | some f => f (tsAt start cfg i)
    | none => rng.cloud i) 0 1

/-- Predicted lux of reading i. -/
noncomputable def predAt (start : PyDatetime) (cfg : TwinConfig)
    (fn : Option (PyDatetime → ℝ)) (rng : RandomStreams) (i : ℕ) : ℝ :=
  predicted_lux (tsAt start cfg i) (cloudAt start cfg fn rng i) cfg

/-- Observed lux of reading i. -/
noncomputable def obsAt (start : PyDatetime) (cfg : TwinConfig)
    (fn : Option (PyDatetime → ℝ)) (rng : RandomStreams) (i : ℕ) : ℝ :=
  observed_lux (predAt start cfg fn rng i) (dayIndexAt start cfg i) cfg
    (rng.gauss i) (rng.unif i) (rng.choice i)

/-- The document built by one loop iteration of generate_series, given the
prev_obs carried from the previous iteration. -/
noncomputable def docAt (start : PyDatetime) (cfg : TwinConfig)
    (fn : Option (PyDatetime → ℝ)) (rng : RandomStreams) (i : ℕ)
    (prev_obs : Option ℝ) : Reading :=
  let obs := obsAt start cfg fn rng i
  let cf := classify_reading obs cfg
  let is_stuck : Bool :=
    match prev_obs with
    | some p => decide (|obs - p| < 1 / 1000000000000)
    | none => false
  { room_id := cfg.room_id
    device_id := cfg.device_id
    model_version := cfg.model_version
    ts := tsAt start cfg i
    cloud_cover := cloudAt start cfg fn rng i
    lux_pred := predAt start cfg fn rng i
    lux_obs := obs
    flags := ⟨cf.is_negative, cf.is_impossible_high, cf.is_dark_alert, is_stuck⟩ }

/-- The for-loop of generate_series: k iterations remaining, next index i,
carrying prev_obs. -/
noncomputable def genLoop (start : PyDatetime) (cfg : TwinConfig)
    (fn : Option (PyDatetime → ℝ)) (rng : RandomStreams) :
    ℕ → ℕ → Option ℝ → List Reading
  | 0, _, _ => []
  | k + 1, i, prev_obs =>
      docAt start cfg fn rng i prev_obs ::
        genLoop start cfg fn rng k (i + 1) (some (obsAt start cfg fn rng i))

/-- generate_series from twin_sim.py: normalize the start timestamp, compute
total_points = int(minutes * 60 / sampling_seconds), loop. -/
noncomputable def generate_series (start_ts : PyDatetime) (minutes : ℤ)
    (cfg : TwinConfig) (fn : Option (PyDatetime → ℝ)) (rng : RandomStreams) :
    List Reading :=
  let start := normalizeTs start_ts
  let total_points := ((minutes * 60).tdiv cfg.sampling_seconds).toNat
  genLoop start cfg fn rng total_points 0 none

/-- mae from twin_eval.py. -/
noncomputable def mae (errors : List ℝ) : ℝ :=
  (errors.map (fun e => |e|)).sum / ((max 1 errors.length : ℕ) : ℝ)

/-- rmse from twin_eval.py; Python x ** 0.5 is real exponentiation. -/
noncomputable def rmse (errors : List ℝ) : ℝ :=
  ((errors.map (fun e => e * e)).sum / ((max 1 errors.length : ℕ) : ℝ)) ^ (0.5 : ℝ)

/-- percent_within_band from twin_eval.py. -/
noncomputable def percent_within_band (obs pred : List ℝ) (tol : ℝ) : ℝ :=
  let within := (obs.zip pred).countP (fun op => decide (|op.1 - op.2| ≤ tol))
  100 * (within : ℝ) / ((max 1 obs.length : ℕ) : ℝ)

/-- The fold inside peak_hour; best carries (hour_of_peak, peak_pred_lux). -/
noncomputable def peakHourGo : List Reading → Option (ℤ × ℝ) → Option (ℤ × ℝ)
  | [], best => best
  | d :: rest, best =>
      let p := d.lux_pred
      peakHourGo rest
        (match best with
          | none => some (d.ts.hour, p)
          | some b => if b.2 < p then some (d.ts.hour, p) else some b)

/-- peak_hour from twin_eval.py. -/
noncomputable def peak_hour (pred_series : List Reading) : ℤ × ℝ :=
  (peakHourGo pred_series none).getD (-1, 0)

/-- Python round(x, n): rounded to n decimal digits. -/
noncomputable def roundTo (n : ℕ) (x : ℝ) : ℝ :=
  ((round (x * 10 ^ n) : ℤ) : ℝ) / 10 ^ n

/-- The reason string of the empty-input report. -/
def noDataReason : String := r"no data"

/-- Result dictionary of evaluate: either the failure shape with only ok and
reason keys, or the full success shape. -/
inductive EvalReport where
  | failure (reason : String)
  | success (count : ℕ) (maeV rmseV withinV tolV : ℝ) (peakHourV : ℤ)
      (peakValV : ℝ) (peakOk : Bool) (negCount highCount stuckCount : ℕ)

/-- The ok field of the report dictionary. -/
def EvalReport.ok : EvalReport → Bool
  | .failure _ => false
  | .success .. => true

/-- The reason field of the report dictionary, when present. -/
def EvalReport.reason : EvalReport → Option String
  | .failure r => some r
  | .success .. => none

/-- The mae field of the report dictionary (0 when absent). -/
def EvalReport.maeVal : EvalReport → ℝ
  | .failure _ => 0
  | .success _ m _ _ _ _ _ _ _ _ _ => m

/-- The rmse field of the report dictionary (0 when absent). -/
def EvalReport.rmseVal : EvalReport → ℝ
  | .failure _ => 0
  | .success _ _ r _ _ _ _ _ _ _ _ => r

/-- evaluate from twin_eval.py. -/
noncomputable def evaluate (readings : List Reading) (tol_lux : ℝ) : EvalReport :=
  if readings.isEmpty then
    .failure noDataReason
  else
    let pred := readings.map (fun d => d.lux_pred)
    let obs := readings.map (fun d => d.lux_obs)
    let errors := List.zipWith (fun o p => o - p) obs pred
    let neg := readings.countP (fun d => d.flags.is_negative)
    let high := readings.countP (fun d => d.flags.is_impossible_high)
    let stuck := readings.countP (fun d => d.flags.is_stuck)
    let pk := peak_hour readings
    let peak_ok : Bool := decide (10 ≤ pk.1) && decide (pk.1 ≤ 14)
    let within := percent_within_band obs pred tol_lux
    .success readings.length (roundTo 3 (mae errors)) (roundTo 3 (rmse errors))
      (roundTo 2 within) tol_lux pk.1 (roundTo 2 pk.2) peak_ok neg high stuck

/-- Default-valued config, as TwinConfig() in the source. -/
noncomputable def witCfg : TwinConfig := {}

/-- Default config except for a negative night-floor lux. -/
noncomputable def cfgNegNight : TwinConfig := { night_lux := -1 }

/-- Config whose whole day curve lies below zero lux: peak_lux > night_lux
holds, but the floor at 0 saturates every daylight value. -/
noncomputable def cfgBelowZero : TwinConfig :=
  { night_lux := -1000, peak_lux := -999, sunrise_hour := 6, sunset_hour := 18 }

/-- Concrete oracle streams used by witnesses: no anomaly is ever drawn since
the uniform draw 1 is not below any anomaly_rate of at most 1. -/
noncomputable def witRng : RandomStreams :=
  ⟨fun _ => 0, fun _ => 1, fun _ => .stuck_low, fun _ => 0⟩

/-- Concrete naive start timestamp used by witnesses. -/
def witStartNaive : PyDatetime := ⟨0, false⟩

/-- Normalization keeps the instant and ends tz-aware. -/
theorem normalizeTs_eq (t : PyDatetime) : normalizeTs t = ⟨t.epochSecs, true⟩ := by
  cases t with
  | mk e a => cases a <;> simp [normalizeTs]

/-- Fractional hour of an on-the-hour timestamp within the first day. -/
theorem fractionalHour_hour (h : ℤ) (h0 : 0 ≤ h) (h24 : h < 24) :
    fractionalHour ⟨h * 3600, true⟩ = (h : ℝ) := by
  have e0 : ((h * 3600 : ℤ).emod 86400) = h * 3600 :=
    Int.emod_eq_of_lt (by positivity) (by omega)
  have e1 : ((h * 3600 : ℤ).ediv 3600) = h := Int.mul_ediv_cancel h (by norm_num)
  have e2 : ((h * 3600 : ℤ).emod 3600) = 0 := Int.mul_emod_left h 3600
  have e3 : ((h * 3600 : ℤ).emod 60) = 0 := by
    rw [show (h * 3600 : ℤ) = h * 60 * 60 by ring]
    exact Int.mul_emod_left (h * 60) 60
  unfold fractionalHour PyDatetime.hour PyDatetime.minute PyDatetime.second
  rw [e0, e1, e2, e3]
  norm_num

/-- C2 (amended: night_lux must be non-negative): predicted_lux never returns a
negative value when the configured night floor is non-negative. -/
theorem C2_predicted_lux_nonneg (cfg : TwinConfig) (hn : 0 ≤ cfg.night_lux)
    (ts : PyDatetime) (cc : ℝ) : 0 ≤ predicted_lux ts cc cfg := by
  simp only [predicted_lux]
  split
  · exact hn
  · exact le_max_left 0 _

/-- C2 witness at the default config, midnight, clear sky. -/
theorem C2_predicted_lux_nonneg_witness :
    0 ≤ witCfg.night_lux ∧ 0 ≤ predicted_lux ⟨0, true⟩ 0 witCfg :=
  ⟨by norm_num [witCfg], C2_predicted_lux_nonneg witCfg (by norm_num [witCfg]) ⟨0, true⟩ 0⟩

/-- C2 counterexample: the claim quantifies over every TwinConfig, but with
night_lux = -1 the night branch returns -1, so the result is negative. -/
theorem C2_counterexample_negative_night :
    predicted_lux ⟨0, true⟩ 0 cfgNegNight < 0 := by
  have hf : fractionalHour ⟨0, true⟩ = 0 := by
    have := fractionalHour_hour 0 (by norm_num) (by norm_num)
    simpa using this
  simp only [predicted_lux]
  rw [if_pos (Or.inl (by rw [hf]; norm_num [cfgNegNight]))]
  norm_num [cfgNegNight]

/-- C3 (amended: night_lux must be non-negative): at or beyond the daylight
bounds, predicted_lux returns night_lux exactly.  At the bounds themselves the
sine factor is zero, so the day branch also yields night_lux once the floor at
zero cannot bite. -/
theorem C3_outside_window_night_lux (cfg : TwinConfig) (hn : 0 ≤ cfg.night_lux)
    (ts : PyDatetime) (cc : ℝ)
    (hout : fractionalHour ts ≤ cfg.sunrise_hour ∨
      cfg.sunset_hour ≤ fractionalHour ts) :
    predicted_lux ts cc cfg = cfg.night_lux := by
  simp only [predicted_lux]
  by_cases hc : fractionalHour ts < cfg.sunrise_hour ∨
      cfg.sunset_hour < fractionalHour ts
  · rw [if_pos hc]
  · rw [if_neg hc]
    push_neg at hc
    have heq : fractionalHour ts = cfg.sunrise_hour ∨
        fractionalHour ts = cfg.sunset_hour := by
      rcases hout with h | h
      · exact Or.inl (le_antisymm h hc.1)
      · exact Or.inr (le_antisymm hc.2 h)
    rcases heq with h | h
    · rw [h]
      simp [sub_self, zero_div, mul_zero, Real.sin_zero, zero_mul, add_zero,
        max_eq_right hn]
    · rw [h]
      by_cases hsp : cfg.sunset_hour - cfg.sunrise_hour = 0
      · rw [hsp]
        simp [Real.sin_zero, max_eq_right hn]
      · rw [div_self hsp]
        simp [mul_one, Real.sin_pi, max_eq_right hn]

/-- C3 witness at the default config and 03:00, strictly before sunrise. -/
theorem C3_outside_window_night_lux_witness :
    0 ≤ witCfg.night_lux ∧
      (fractionalHour ⟨10800, true⟩ ≤ witCfg.sunrise_hour ∨
        witCfg.sunset_hour ≤ fractionalHour ⟨10800, true⟩) ∧
      predicted_lux ⟨10800, true⟩ 0 witCfg = witCfg.night_lux := by
  have hf : fractionalHour ⟨10800, true⟩ = 3 := by
    have := fractionalHour_hour 3 (by norm_num) (by norm_num)
    simpa using this
  refine ⟨by norm_num [witCfg], Or.inl (by rw [hf]; norm_num [witCfg]), ?_⟩
  exact C3_outside_window_night_lux witCfg (by norm_num [witCfg]) ⟨10800, true⟩ 0
    (Or.inl (by rw [hf]; norm_num [witCfg]))

/-- C3 counterexample: at the sunrise bound with night_lux = -1 the code takes
the day branch and floors at zero, returning 0 rather than night_lux = -1. -/
theorem C3_counterexample_boundary :
    predicted_lux ⟨25200, true⟩ 0 cfgNegNight = 0 ∧ cfgNegNight.night_lux = -1 := by
  have hf : fractionalHour ⟨25200, true⟩ = 7 := by
    have := fractionalHour_hour 7 (by norm_num) (by norm_num)
    simpa using this
  constructor
  · simp only [predicted_lux]
    rw [if_neg (by rw [hf]; norm_num [cfgNegNight])]
    rw [hf]
    norm_num [cfgNegNight, pyClamp]
  · norm_num [cfgNegNight]

/-- C4: observed_lux adds drift_per_day * day_index and the Gaussian draw to
the predicted value; when the uniform draw falls below anomaly_rate the value
is overwritten (not perturbed) by the drawn one of the four anomaly values:
stuck-low 0, stuck-high 2 * peak_lux, spike predicted + 3 * peak_lux, or
negative -50. -/
theorem C4_observed_lux_drift_noise_anomaly (pred_lux : ℝ) (day_index : ℤ)
    (cfg : TwinConfig) (noise u : ℝ) (kind : AnomalyKind) :
    observed_lux pred_lux day_index cfg noise u kind =
      if u < cfg.anomaly_rate then
        match kind with
        | .stuck_low => 0
        | .stuck_high => 2 * cfg.peak_lux
        | .spike => pred_lux + 3 * cfg.peak_lux
        | .negative => -50
      else
        pred_lux + cfg.drift_per_day * (day_index : ℝ) + noise := by
  simp only [observed_lux]
  split
  · cases kind <;> ring_nf
  · rfl

/-- C5: classify_reading flag semantics, mutual exclusivity of is_negative and
is_dark_alert, and the two concrete examples from the spec (the default config
has impossible_high_lux = 20000). -/
theorem C5_classify_reading_flags :
    (∀ (lux : ℝ) (cfg : TwinConfig),
      ((classify_reading lux cfg).is_negative = true ↔ lux < 0) ∧
      ((classify_reading lux cfg).is_impossible_high = true ↔
        cfg.impossible_high_lux < lux) ∧
      ((classify_reading lux cfg).is_dark_alert = true ↔
        0 ≤ lux ∧ lux < cfg.alert_lux_threshold) ∧
      ((classify_reading lux cfg).is_negative &&
        (classify_reading lux cfg).is_dark_alert) = false) ∧
    (classify_reading (-1) witCfg).is_negative = true ∧
    (classify_reading (-1) witCfg).is_impossible_high = false ∧
    witCfg.impossible_high_lux = 20000 ∧
    (classify_reading 50000 witCfg).is_impossible_high = true := by
  refine ⟨fun lux cfg => ⟨?_, ?_, ?_, ?_⟩, ?_, ?_, ?_, ?_⟩
  · simp [classify_reading]
  · simp [classify_reading]
  · simp [classify_reading]
  · rcases lt_or_le lux 0 with h | h
    · simp [classify_reading, h.not_le]
    · simp [classify_reading, h.not_lt]
  · simp [classify_reading]
  · simp [classify_reading, witCfg]
    norm_num
  · norm_num [witCfg]
  · simp [classify_reading, witCfg]
    norm_num

/-- pyClamp into [0,1] stays below 1. -/
theorem pyClamp_le_one (x : ℝ) : pyClamp x 0 1 ≤ 1 :=
  max_le zero_le_one (min_le_left _ _)

/-- pyClamp into [0,1] stays above 0. -/
theorem pyClamp_nonneg (x : ℝ) : 0 ≤ pyClamp x 0 1 :=
  le_max_left _ _

/-- In-window form of predicted_lux. -/
theorem predicted_lux_day (ts : PyDatetime) (cc : ℝ) (cfg : TwinConfig)
    (hA : cfg.sunrise_hour ≤ fractionalHour ts)
    (hB : fractionalHour ts ≤ cfg.sunset_hour) :
    predicted_lux ts cc cfg =
      max 0 (cfg.night_lux + (cfg.peak_lux - cfg.night_lux) *
        Real.sin (Real.pi * ((fractionalHour ts - cfg.sunrise_hour) /
          (cfg.sunset_hour - cfg.sunrise_hour))) *
        (1 - 0.75 * pyClamp cc 0 1)) := by
  simp only [predicted_lux]
  rw [if_neg]
  simp only [not_or, not_lt]
  exact ⟨hA, hB⟩

/-- The half-sine shape as a decreasing function of the distance to 1/2. -/
theorem sin_pi_mul_eq_cos_dist (x : ℝ) :
    Real.sin (Real.pi * x) = Real.cos (Real.pi * |x - 1 / 2|) := by
  have h1 : Real.pi / 2 - Real.pi * x = -(Real.pi * (x - 1 / 2)) := by ring
  calc Real.sin (Real.pi * x)
      = Real.cos (Real.pi / 2 - Real.pi * x) := (Real.cos_pi_div_two_sub _).symm
    _ = Real.cos (-(Real.pi * (x - 1 / 2))) := by rw [h1]
    _ = Real.cos (Real.pi * (x - 1 / 2)) := Real.cos_neg _
    _ = Real.cos |Real.pi * (x - 1 / 2)| := (Real.cos_abs _).symm
    _ = Real.cos (Real.pi * |x - 1 / 2|) := by
        rw [abs_mul, abs_of_nonneg Real.pi_nonneg]

/-- C7 (amended: night_lux must be non-negative): with peak_lux > night_lux at
a timestamp strictly inside the daylight window, predicted_lux strictly
decreases in cloud_cover on [0, 1]. -/
theorem C7_cloud_cover_strictly_decreases (cfg : TwinConfig) (ts : PyDatetime)
    (c1 c2 : ℝ) (hn : 0 ≤ cfg.night_lux) (hpn : cfg.night_lux < cfg.peak_lux)
    (hsr : cfg.sunrise_hour < fractionalHour ts)
    (hss : fractionalHour ts < cfg.sunset_hour)
    (hc1 : 0 ≤ c1) (hc12 : c1 < c2) (hc2 : c2 ≤ 1) :
    predicted_lux ts c2 cfg < predicted_lux ts c1 cfg := by
  have hspan : 0 < cfg.sunset_hour - cfg.sunrise_hour := by linarith
  have hx0 : 0 < (fractionalHour ts - cfg.sunrise_hour) /
      (cfg.sunset_hour - cfg.sunrise_hour) := div_pos (by linarith) hspan
  have hx1 : (fractionalHour ts - cfg.sunrise_hour) /
      (cfg.sunset_hour - cfg.sunrise_hour) < 1 :=
    (div_lt_one hspan).mpr (by linarith)
  have hsin : 0 < Real.sin (Real.pi * ((fractionalHour ts - cfg.sunrise_hour) /
      (cfg.sunset_hour - cfg.sunrise_hour))) := by
    apply Real.sin_pos_of_pos_of_lt_pi
    · positivity
    · nlinarith [Real.pi_pos]
  have hcl1 : pyClamp c1 0 1 = c1 := by
    unfold pyClamp
    rw [min_eq_right (by linarith), max_eq_right hc1]
  have hcl2 : pyClamp c2 0 1 = c2 := by
    unfold pyClamp
    rw [min_eq_right hc2, max_eq_right (by linarith)]
  rw [predicted_lux_day ts c1 cfg hsr.le hss.le,
    predicted_lux_day ts c2 cfg hsr.le hss.le, hcl1, hcl2]
  have hD : 0 < (cfg.peak_lux - cfg.night_lux) *
      Real.sin (Real.pi * ((fractionalHour ts - cfg.sunrise_hour) /
        (cfg.sunset_hour - cfg.sunrise_hour))) :=
    mul_pos (by linarith) hsin
  have hv2 : 0 < cfg.night_lux + (cfg.peak_lux - cfg.night_lux) *
      Real.sin (Real.pi * ((fractionalHour ts - cfg.sunrise_hour) /
        (cfg.sunset_hour - cfg.sunrise_hour))) * (1 - 0.75 * c2) := by
    nlinarith
  have hv1 : 0 < cfg.night_lux + (cfg.peak_lux - cfg.night_lux) *
      Real.sin (Real.pi * ((fractionalHour ts - cfg.sunrise_hour) /
        (cfg.sunset_hour - cfg.sunrise_hour))) * (1 - 0.75 * c1) := by
    nlinarith
  rw [max_eq_right hv2.le, max_eq_right hv1.le]
  nlinarith

/-- C7 witness at the default config, noon, clear sky versus total overcast. -/
theorem C7_cloud_cover_strictly_decreases_witness :
    0 ≤ witCfg.night_lux ∧ witCfg.night_lux < witCfg.peak_lux ∧
      witCfg.sunrise_hour < fractionalHour ⟨43200, true⟩ ∧
      fractionalHour ⟨43200, true⟩ < witCfg.sunset_hour ∧
      (0 : ℝ) ≤ 0 ∧ (0 : ℝ) < 1 ∧ (1 : ℝ) ≤ 1 ∧
      predicted_lux ⟨43200, true⟩ 1 witCfg < predicted_lux ⟨43200, true⟩ 0 witCfg := by
  have hf : fractionalHour ⟨43200, true⟩ = 12 := by
    have := fractionalHour_hour 12 (by norm_num) (by norm_num)
    simpa using this
  refine ⟨by norm_num [witCfg], by norm_num [witCfg], by rw [hf]; norm_num [witCfg],
    by rw [hf]; norm_num [witCfg], le_refl 0, one_pos, le_refl 1, ?_⟩
  exact C7_cloud_cover_strictly_decreases witCfg ⟨43200, true⟩ 0 1
    (by norm_num [witCfg]) (by norm_num [witCfg]) (by rw [hf]; norm_num [witCfg])
    (by rw [hf]; norm_num [witCfg]) (le_refl 0) one_pos (le_refl 1)

/-- C7 counterexample: the claim only assumes peak_lux > night_lux, but with a
day curve that lies entirely below zero the floor saturates both values at 0
at noon, so predicted_lux is not strictly decreasing in cloud_cover even
though every hypothesis of the claim holds at this input. -/
theorem C7_counterexample_floored_curve :
    cfgBelowZero.night_lux < cfgBelowZero.peak_lux ∧
      cfgBelowZero.sunrise_hour < fractionalHour ⟨43200, true⟩ ∧
      fractionalHour ⟨43200, true⟩ < cfgBelowZero.sunset_hour ∧
      predicted_lux ⟨43200, true⟩ 1 cfgBelowZero = 0 ∧
      predicted_lux ⟨43200, true⟩ 0 cfgBelowZero = 0 := by
  have hf : fractionalHour ⟨43200, true⟩ = 12 := by
    have := fractionalHour_hour 12 (by norm_num) (by norm_num)
    simpa using this
  have hsin : Real.sin (Real.pi * (((12 : ℝ) - 6) / (18 - 6))) = 1 := by
    rw [show ((12 : ℝ) - 6) / (18 - 6) = 1 / 2 by norm_num]
    rw [show Real.pi * (1 / 2 : ℝ) = Real.pi / 2 by ring]
    exact Real.sin_pi_div_two
  refine ⟨by norm_num [cfgBelowZero], by rw [hf]; norm_num [cfgBelowZero],
    by rw [hf]; norm_num [cfgBelowZero], ?_, ?_⟩
  · rw [predicted_lux_day ⟨43200, true⟩ 1 cfgBelowZero
      (by rw [hf]; norm_num [cfgBelowZero]) (by rw [hf]; norm_num [cfgBelowZero])]
    rw [hf]
    simp only [cfgBelowZero]
    rw [hsin]
    rw [show pyClamp (1 : ℝ) 0 1 = 1 by rw [pyClamp]; norm_num]
    rw [max_eq_left (by norm_num)]
  · rw [predicted_lux_day ⟨43200, true⟩ 0 cfgBelowZero
      (by rw [hf]; norm_num [cfgBelowZero]) (by rw [hf]; norm_num [cfgBelowZero])]
    rw [hf]
    simp only [cfgBelowZero]
    rw [hsin]
    rw [show pyClamp (0 : ℝ) 0 1 = 0 by rw [pyClamp]; norm_num]
    rw [max_eq_left (by norm_num)]

/-- C8: for fixed cloud cover, over timestamps in the daylight window the
predicted value is largest at the window midpoint and varies monotonically
with the distance of the fractional hour from that midpoint: a timestamp at
least as close to the midpoint predicts at least as much lux.  Taking ts2 at
the midpoint gives the maximum statement; taking both hours on the same side
of the midpoint gives the two monotone-segment statements. -/
theorem C8_day_curve_peaks_at_midpoint (cfg : TwinConfig) (ts1 ts2 : PyDatetime)
    (c : ℝ) (hpn : cfg.night_lux < cfg.peak_lux)
    (hsw : cfg.sunrise_hour < cfg.sunset_hour)
    (h1a : cfg.sunrise_hour ≤ fractionalHour ts1)
    (h1b : fractionalHour ts1 ≤ cfg.sunset_hour)
    (h2a : cfg.sunrise_hour ≤ fractionalHour ts2)
    (h2b : fractionalHour ts2 ≤ cfg.sunset_hour)
    (hmid : |fractionalHour ts2 - (cfg.sunrise_hour + cfg.sunset_hour) / 2| ≤
      |fractionalHour ts1 - (cfg.sunrise_hour + cfg.sunset_hour) / 2|) :
    predicted_lux ts1 c cfg ≤ predicted_lux ts2 c cfg := by
  have hspan : 0 < cfg.sunset_hour - cfg.sunrise_hour := by linarith
  have hdist : ∀ t : PyDatetime,
      (fractionalHour t - cfg.sunrise_hour) / (cfg.sunset_hour - cfg.sunrise_hour)
        - 1 / 2 =
      (fractionalHour t - (cfg.sunrise_hour + cfg.sunset_hour) / 2) /
        (cfg.sunset_hour - cfg.sunrise_hour) := by
    intro t
    field_simp
    ring
  have habs : ∀ t : PyDatetime,
      |(fractionalHour t - cfg.sunrise_hour) / (cfg.sunset_hour - cfg.sunrise_hour)
        - 1 / 2| =
      |fractionalHour t - (cfg.sunrise_hour + cfg.sunset_hour) / 2| /
        (cfg.sunset_hour - cfg.sunrise_hour) := by
    intro t
    rw [hdist t, abs_div, abs_of_pos hspan]
  have key : Real.sin (Real.pi *
        ((fractionalHour ts1 - cfg.sunrise_hour) / (cfg.sunset_hour - cfg.sunrise_hour)))
      ≤ Real.sin (Real.pi *
        ((fractionalHour ts2 - cfg.sunrise_hour) / (cfg.sunset_hour - cfg.sunrise_hour))) := by
    rw [sin_pi_mul_eq_cos_dist, sin_pi_mul_eq_cos_dist]
    apply Real.cos_le_cos_of_nonneg_of_le_pi
    · positivity
    · have hx0 : 0 ≤ (fractionalHour ts1 - cfg.sunrise_hour) /
          (cfg.sunset_hour - cfg.sunrise_hour) := div_nonneg (by linarith) hspan.le
      have hx1 : (fractionalHour ts1 - cfg.sunrise_hour) /
          (cfg.sunset_hour - cfg.sunrise_hour) ≤ 1 := (div_le_one hspan).mpr (by linarith)
      have hb : |(fractionalHour ts1 - cfg.sunrise_hour) /
          (cfg.sunset_hour - cfg.sunrise_hour) - 1 / 2| ≤ 1 / 2 :=
        abs_le.mpr ⟨by linarith, by linarith⟩
      nlinarith [Real.pi_pos]
    · apply mul_le_mul_of_nonneg_left _ Real.pi_nonneg
      rw [habs ts1, habs ts2]
      exact (div_le_div_iff_of_pos_right hspan).mpr hmid
  rw [predicted_lux_day ts1 c cfg h1a h1b, predicted_lux_day ts2 c cfg h2a h2b]
  apply max_le_max (le_refl 0)
  have hatt : 0 ≤ 1 - 0.75 * pyClamp c 0 1 := by
    have := pyClamp_le_one c
    linarith
  have hD : 0 ≤ cfg.peak_lux - cfg.night_lux := by linarith
  have := mul_le_mul_of_nonneg_right (mul_le_mul_of_nonneg_left key hD) hatt
  linarith

/-- C8 witness: default config, 08:00 versus the window midpoint 12:30. -/
theorem C8_day_curve_peaks_at_midpoint_witness :
    witCfg.night_lux < witCfg.peak_lux ∧
      witCfg.sunrise_hour < witCfg.sunset_hour ∧
      witCfg.sunrise_hour ≤ fractionalHour ⟨28800, true⟩ ∧
      fractionalHour ⟨28800, true⟩ ≤ witCfg.sunset_hour ∧
      witCfg.sunrise_hour ≤ fractionalHour ⟨45000, true⟩ ∧
      fractionalHour ⟨45000, true⟩ ≤ witCfg.sunset_hour ∧
      (|fractionalHour ⟨45000, true⟩ - (witCfg.sunrise_hour + witCfg.sunset_hour) / 2| ≤
        |fractionalHour ⟨28800, true⟩ - (witCfg.sunrise_hour + witCfg.sunset_hour) / 2|) ∧
      predicted_lux ⟨28800, true⟩ 0 witCfg ≤ predicted_lux ⟨45000, true⟩ 0 witCfg := by
  have hf1 : fractionalHour ⟨28800, true⟩ = 8 := by
    have := fractionalHour_hour 8 (by norm_num) (by norm_num)
    simpa using this
  have hf2 : fractionalHour ⟨45000, true⟩ = 25 / 2 := by
    have e0 : (((45000 : ℤ).emod 86400).ediv 3600) = 12 := by decide
    have e1 : (((45000 : ℤ).emod 3600).ediv 60) = 30 := by decide
    have e2 : ((45000 : ℤ).emod 60) = 0 := by decide
    unfold fractionalHour PyDatetime.hour PyDatetime.minute PyDatetime.second
    rw [e0, e1, e2]
    norm_num
  have hm2 : |fractionalHour ⟨45000, true⟩ -
      (witCfg.sunrise_hour + witCfg.sunset_hour) / 2| = 0 := by
    rw [hf2]
    norm_num [witCfg]
  have hmid : |fractionalHour ⟨45000, true⟩ -
        (witCfg.sunrise_hour + witCfg.sunset_hour) / 2| ≤
      |fractionalHour ⟨28800, true⟩ - (witCfg.sunrise_hour + witCfg.sunset_hour) / 2| := by
    rw [hm2]
    exact abs_nonneg _
  refine ⟨by norm_num [witCfg], by norm_num [witCfg], by rw [hf1]; norm_num [witCfg],
    by rw [hf1]; norm_num [witCfg], by rw [hf2]; norm_num [witCfg],
    by rw [hf2]; norm_num [witCfg], hmid, ?_⟩
  exact C8_day_curve_peaks_at_midpoint witCfg ⟨28800, true⟩ ⟨45000, true⟩ 0
    (by norm_num [witCfg]) (by norm_num [witCfg]) (by rw [hf1]; norm_num [witCfg])
    (by rw [hf1]; norm_num [witCfg]) (by rw [hf2]; norm_num [witCfg])
    (by rw [hf2]; norm_num [witCfg]) hmid

/-- The generation loop emits exactly one document per remaining iteration. -/
theorem genLoop_length (start : PyDatetime) (cfg : TwinConfig)
    (fn : Option (PyDatetime → ℝ)) (rng : RandomStreams) :
    ∀ (k i : ℕ) (prev : Option ℝ),
      (genLoop start cfg fn rng k i prev).length = k := by
  intro k
  induction k with
  | zero => intro i prev; rfl
  | succ k ih =>
      intro i prev
      simp [genLoop, ih]

/-- Element j of the generation loop is the document of index i + j, whose
carried prev_obs is the observed value of the preceding index. -/
theorem genLoop_getD (start : PyDatetime) (cfg : TwinConfig)
    (fn : Option (PyDatetime → ℝ)) (rng : RandomStreams) :
    ∀ (k i j : ℕ) (prev : Option ℝ), j < k →
      (genLoop start cfg fn rng k i prev).getD j defaultReading =
        docAt start cfg fn rng (i + j)
          (if j = 0 then prev else some (obsAt start cfg fn rng (i + j - 1))) := by
  intro k
  induction k with
  | zero => intro i j prev h; exact absurd h (Nat.not_lt_zero j)
  | succ k ih =>
      intro i j prev h
      cases j with
      | zero => simp [genLoop]
      | succ j =>
          have h' : j < k := by omega
          simp only [genLoop, List.getD_cons_succ]
          rw [ih (i + 1) j (some (obsAt start cfg fn rng i)) h']
          rw [if_neg (Nat.succ_ne_zero j)]
          by_cases hj : j = 0
          · subst hj
            simp
          · rw [if_neg hj]
            rw [show i + 1 + j = i + (j + 1) by omega]

/-- Timestamp field of a loop document. -/
theorem docAt_ts (start : PyDatetime) (cfg : TwinConfig)
    (fn : Option (PyDatetime → ℝ)) (rng : RandomStreams) (i : ℕ)
    (prev : Option ℝ) :
    (docAt start cfg fn rng i prev).ts = tsAt start cfg i := rfl

/-- Observed-lux field of a loop document. -/
theorem docAt_lux_obs (start : PyDatetime) (cfg : TwinConfig)
    (fn : Option (PyDatetime → ℝ)) (rng : RandomStreams) (i : ℕ)
    (prev : Option ℝ) :
    (docAt start cfg fn rng i prev).lux_obs = obsAt start cfg fn rng i := rfl

/-- Stuck flag of a loop document, in terms of the carried prev_obs. -/
theorem docAt_is_stuck (start : PyDatetime) (cfg : TwinConfig)
    (fn : Option (PyDatetime → ℝ)) (rng : RandomStreams) (i : ℕ) (p : ℝ) :
    (docAt start cfg fn rng i (some p)).flags.is_stuck =
      decide (|obsAt start cfg fn rng i - p| < 1 / 1000000000000) := rfl

/-- Stuck flag of a loop document with no predecessor. -/
theorem docAt_is_stuck_none (start : PyDatetime) (cfg : TwinConfig)
    (fn : Option (PyDatetime → ℝ)) (rng : RandomStreams) (i : ℕ) :
    (docAt start cfg fn rng i none).flags.is_stuck = false := rfl

/-- generate_series unfolded to the loop over the normalized start. -/
theorem generate_series_eq (start_ts : PyDatetime) (minutes : ℤ)
    (cfg : TwinConfig) (fn : Option (PyDatetime → ℝ)) (rng : RandomStreams) :
    generate_series start_ts minutes cfg fn rng =
      genLoop (normalizeTs start_ts) cfg fn rng
        ((minutes * 60).tdiv cfg.sampling_seconds).toNat 0 none := rfl

/-- Length of a generated series, before rephrasing truncation as flooring. -/
theorem generate_series_length (start_ts : PyDatetime) (minutes : ℤ)
    (cfg : TwinConfig) (fn : Option (PyDatetime → ℝ)) (rng : RandomStreams) :
    (generate_series start_ts minutes cfg fn rng).length =
      ((minutes * 60).tdiv cfg.sampling_seconds).toNat := by
  rw [generate_series_eq, genLoop_length]

/-- C1: with a positive sampling interval and a non-negative duration, the
series has exactly floor(minutes * 60 / sampling_seconds) readings; reading i
sits at the start instant plus i * sampling_seconds seconds with UTC attached
(so a naive start is normalized and spacing is exactly sampling_seconds), and
timestamps strictly increase along the series. -/
theorem C1_generate_series_count_and_spacing (cfg : TwinConfig)
    (hs : 0 < cfg.sampling_seconds) (start_ts : PyDatetime) (minutes : ℤ)
    (hm : 0 ≤ minutes) (fn : Option (PyDatetime → ℝ)) (rng : RandomStreams)
    (i j : ℕ)
    (hi : i < (generate_series start_ts minutes cfg fn rng).length)
    (hj : j < (generate_series start_ts minutes cfg fn rng).length)
    (hij : i < j) :
    (generate_series start_ts minutes cfg fn rng).length
        = (minutes * 60 / cfg.sampling_seconds).toNat ∧
      ((generate_series start_ts minutes cfg fn rng).getD i defaultReading).ts
        = ⟨start_ts.epochSecs + (i : ℤ) * cfg.sampling_seconds, true⟩ ∧
      ((generate_series start_ts minutes cfg fn rng).getD i defaultReading).ts.epochSecs
        < ((generate_series start_ts minutes cfg fn rng).getD j defaultReading).ts.epochSecs := by
  have hts : ∀ m : ℕ, m < (generate_series start_ts minutes cfg fn rng).length →
      ((generate_series start_ts minutes cfg fn rng).getD m defaultReading).ts
        = ⟨start_ts.epochSecs + (m : ℤ) * cfg.sampling_seconds, true⟩ := by
    intro m hm'
    rw [generate_series_length] at hm'
    rw [generate_series_eq]
    rw [genLoop_getD _ _ _ _ _ 0 m none hm']
    rw [docAt_ts]
    simp only [Nat.zero_add]
    unfold tsAt PyDatetime.addSeconds
    rw [normalizeTs_eq]
  refine ⟨?_, hts i hi, ?_⟩
  · rw [generate_series_length,
      Int.tdiv_eq_ediv (mul_nonneg hm (by norm_num)) hs.le]
  · rw [hts i hi, hts j hj]
    have hcast : (i : ℤ) < (j : ℤ) := by exact_mod_cast hij
    exact add_lt_add_left (mul_lt_mul_of_pos_right hcast hs) _

/-- Length of the two-minute default-config witness series. -/
theorem witSeries_length :
    (generate_series witStartNaive 2 witCfg none witRng).length = 2 := by
  rw [generate_series_length]
  rw [show witCfg.sampling_seconds = 60 from rfl]
  decide

/-- C1 witness: default config, naive start at the epoch, two minutes. -/
theorem C1_generate_series_count_and_spacing_witness :
    0 < witCfg.sampling_seconds ∧ (0 : ℤ) ≤ 2 ∧
      0 < (generate_series witStartNaive 2 witCfg none witRng).length ∧
      1 < (generate_series witStartNaive 2 witCfg none witRng).length ∧
      (0 : ℕ) < 1 ∧
      ((generate_series witStartNaive 2 witCfg none witRng).length
          = ((2 : ℤ) * 60 / witCfg.sampling_seconds).toNat ∧
        ((generate_series witStartNaive 2 witCfg none witRng).getD 0 defaultReading).ts
          = ⟨witStartNaive.epochSecs + (0 : ℤ) * witCfg.sampling_seconds, true⟩ ∧
        ((generate_series witStartNaive 2 witCfg none witRng).getD 0 defaultReading).ts.epochSecs
          < ((generate_series witStartNaive 2 witCfg none witRng).getD 1 defaultReading).ts.epochSecs) := by
  refine ⟨by decide, by norm_num, by rw [witSeries_length]; norm_num,
    by rw [witSeries_length]; norm_num, by norm_num, ?_⟩
  exact C1_generate_series_count_and_spacing witCfg (by decide) witStartNaive 2
    (by norm_num) none witRng 0 1 (by rw [witSeries_length]; norm_num)
    (by rw [witSeries_length]; norm_num) (by norm_num)

/-- C6: reading 0 of any generated series is never flagged stuck, and reading
i > 0 is flagged stuck exactly when its observed value is within the 1e-12
tolerance of the immediately preceding observed value. -/
theorem C6_stuck_flag_consecutive (cfg : TwinConfig) (start_ts : PyDatetime)
    (minutes : ℤ) (fn : Option (PyDatetime → ℝ)) (rng : RandomStreams) (i : ℕ)
    (hi : i < (generate_series start_ts minutes cfg fn rng).length) :
    ((generate_series start_ts minutes cfg fn rng).getD i defaultReading).flags.is_stuck
        = true ↔
      (i ≠ 0 ∧
        |((generate_series start_ts minutes cfg fn rng).getD i defaultReading).lux_obs -
          ((generate_series start_ts minutes cfg fn rng).getD (i - 1) defaultReading).lux_obs|
            < 1 / 1000000000000) := by
  rw [generate_series_length] at hi
  rw [generate_series_eq]
  cases i with
  | zero =>
      rw [genLoop_getD _ _ _ _ _ 0 0 none hi]
      simp [docAt_is_stuck_none]
  | succ m =>
      have hm : m < ((minutes * 60).tdiv cfg.sampling_seconds).toNat := by omega
      rw [genLoop_getD _ _ _ _ _ 0 (m + 1) none hi]
      simp only [Nat.zero_add, Nat.add_sub_cancel]
      rw [genLoop_getD _ _ _ _ _ 0 m none hm]
      simp only [Nat.zero_add]
      rw [if_neg (Nat.succ_ne_zero m)]
      by_cases hm0 : m = 0
      · subst hm0
        rw [if_pos rfl]
        rw [docAt_is_stuck, docAt_lux_obs, docAt_lux_obs]
        simp [Nat.succ_ne_zero]
      · rw [if_neg hm0]
        rw [docAt_is_stuck, docAt_lux_obs, docAt_lux_obs]
        simp [Nat.succ_ne_zero]

/-- C6 witness: index 1 of the two-reading witness series. -/
theorem C6_stuck_flag_consecutive_witness :
    1 < (generate_series witStartNaive 2 witCfg none witRng).length ∧
      (((generate_series witStartNaive 2 witCfg none witRng).getD 1 defaultReading).flags.is_stuck
          = true ↔
        ((1 : ℕ) ≠ 0 ∧
          |((generate_series witStartNaive 2 witCfg none witRng).getD 1 defaultReading).lux_obs -
            ((generate_series witStartNaive 2 witCfg none witRng).getD 0 defaultReading).lux_obs|
              < 1 / 1000000000000)) := by
  refine ⟨by rw [witSeries_length]; norm_num, ?_⟩
  exact C6_stuck_flag_consecutive witCfg witStartNaive 2 none witRng 1
    (by rw [witSeries_length]; norm_num)

/-- Pointwise error list: zipping the observed and predicted projections of
one reading list is mapping the per-reading difference. -/
theorem zipWith_sub_map (l : List Reading) :
    List.zipWith (fun o p => o - p) (l.map (fun d => d.lux_obs))
        (l.map (fun d => d.lux_pred))
      = l.map (fun d => d.lux_obs - d.lux_pred) := by
  induction l with
  | nil => rfl
  | cons a l ih => simp [ih]

/-- C10: the metric helpers are total; the divisor guard max(1, length) keeps
every division well defined, and each helper returns 0 on empty input. -/
theorem C10_metric_helpers_total_on_empty :
    mae [] = 0 ∧ rmse [] = 0 ∧
      (∀ (pred : List ℝ) (tol : ℝ), percent_within_band [] pred tol = 0) ∧
      (∀ l : List ℝ, 0 < (max 1 l.length : ℕ)) := by
  refine ⟨by simp [mae], ?_, ?_, fun l => by omega⟩
  · simp only [rmse, List.map_nil, List.sum_nil, List.length_nil]
    norm_num
  · intro pred tol
    simp [percent_within_band]

/-- C9: evaluate on an empty reading list returns ok = false together with a
reason string instead of raising (the function is total), and on a non-empty
list returns ok = true with the mae and rmse fields computed from the
observed-minus-predicted error list. -/
theorem C9_evaluate_empty_vs_nonempty (rs : List Reading) (tol tol2 : ℝ)
    (hne : rs ≠ []) :
    (evaluate [] tol2).ok = false ∧
      (evaluate [] tol2).reason = some noDataReason ∧
      (evaluate rs tol).ok = true ∧
      (evaluate rs tol).maeVal =
        roundTo 3 (mae (rs.map (fun d => d.lux_obs - d.lux_pred))) ∧
      (evaluate rs tol).rmseVal =
        roundTo 3 (rmse (rs.map (fun d => d.lux_obs - d.lux_pred))) := by
  cases rs with
  | nil => exact absurd rfl hne
  | cons a l =>
      refine ⟨by simp [evaluate, EvalReport.ok], by simp [evaluate, EvalReport.reason],
        by simp [evaluate, EvalReport.ok], ?_, ?_⟩
      · simp [evaluate, EvalReport.maeVal, zipWith_sub_map]
      · simp [evaluate, EvalReport.rmseVal, zipWith_sub_map]

/-- C9 witness: a one-reading list versus the empty list, both at the default
tolerance 25. -/
theorem C9_evaluate_empty_vs_nonempty_witness :
    ([defaultReading] ≠ ([] : List Reading)) ∧
      ((evaluate [] 25).ok = false ∧
        (evaluate [] 25).reason = some noDataReason ∧
        (evaluate [defaultReading] 25).ok = true ∧
        (evaluate [defaultReading] 25).maeVal =
          roundTo 3 (mae ([defaultReading].map (fun d => d.lux_obs - d.lux_pred))) ∧
        (evaluate [defaultReading] 25).rmseVal =
          roundTo 3 (rmse ([defaultReading].map (fun d => d.lux_obs - d.lux_pred)))) :=
  ⟨by simp, C9_evaluate_empty_vs_nonempty [defaultReading] 25 25 (by simp)⟩
